import Mathlib

set_option maxRecDepth 8192

/-!
Verification of the OpenRouter Gradio front-end scripts.

Each Python script is embedded as a pure Lean function in its own namespace:

* `TextChat`      — openrouter-text2text.py (streaming chat handler)
* `ImageAnalysis` — openrouter-image-analysis.py
* `ImageAnalyzis` — openrouter-image-analyzis.py (fixed Grok model)
* `Generator`     — openrouter-image-analysis-and-generator.py
* `Part000`       — the unnamed multimodal analysis/generation script

External effects are made explicit: the wall clock is a rational timestamp
carried by each stream chunk, the remote API call is an `Except` argument,
the temporary-file store is an association list from paths to contents, and
a raised `gr.Error` is the `Except.error` of the handler's result.
-/

namespace OpenRouter

/-- Python `str.strip()`: remove leading and trailing whitespace. -/
def pyStrip (s : String) : String :=
  ⟨((s.data.dropWhile Char.isWhitespace).reverse.dropWhile Char.isWhitespace).reverse⟩

/-- Python `str.split(c)` for a one-character separator, on the character list. -/
def splitListChar (c : Char) : List Char → List (List Char)
  | [] => [[]]
  | x :: xs =>
    let r := splitListChar c xs
    if x = c then [] :: r
    else
      match r with
      | [] => [[x]]
      | y :: ys => (x :: y) :: ys

/-- Python `url.split(",")`. -/
def pySplitComma (s : String) : List String :=
  (splitListChar ',' s.data).map (fun l => ⟨l⟩)

def strContainsAux (pat : List Char) : List Char → Bool
  | [] => pat.isPrefixOf []
  | x :: xs => pat.isPrefixOf (x :: xs) || strContainsAux pat xs

/-- Python `pat in s` substring test. -/
def strContains (s pat : String) : Bool := strContainsAux pat.data s.data

/-- Python truthiness of an optional string (`None` and `""` are falsy). -/
def pyTruthyOptStr : Option String → Bool
  | none => false
  | some s => s ≠ ""

/-- Python `getattr(obj, attr, None) or None`: an empty string collapses to `None`. -/
def pyOrNone : Option String → Option String
  | none => none
  | some s => if s = "" then none else some s

/-- The base64 alphabet used by `base64.b64encode`. -/
def b64chars : String :=
  "ABCDEFGHIJKLMNOPQRSTUVWXYZabcdefghijklmnopqrstuvwxyz0123456789+/"

def b64char (n : Nat) : Char := b64chars.data.getD n 'A'

/-- RFC 4648 base64 encoding of a byte list, as `base64.b64encode` produces. -/
def b64encode : List Nat → String
  | [] => ""
  | [a] =>
    ⟨[b64char (a / 4), b64char (a % 4 * 16)]⟩ ++ "=="
  | [a, b] =>
    ⟨[b64char (a / 4), b64char (a % 4 * 16 + b / 16), b64char (b % 16 * 4)]⟩ ++ "="
  | a :: b :: c :: rest =>
    ⟨[b64char (a / 4), b64char (a % 4 * 16 + b / 16),
      b64char (b % 16 * 4 + c / 64), b64char (c % 64)]⟩ ++ b64encode rest

def b64indexAux (c : Char) : List Char → Option Nat
  | [] => none
  | x :: xs => if x = c then some 0 else (b64indexAux c xs).map (· + 1)

/-- The 6-bit value of a base64 alphabet character, `none` outside it. -/
def b64indexOf (c : Char) : Option Nat := b64indexAux c b64chars.data

/-- Byte output of complete and trailing base64 quanta of 6-bit digits. -/
def b64decodeDigits : List Nat → List Nat
  | a :: b :: c :: d :: rest =>
    (a * 4 + b / 16) :: (b % 16 * 16 + c / 4) :: (c % 4 * 64 + d) :: b64decodeDigits rest
  | [a, b] => [a * 4 + b / 16]
  | [a, b, c] => [a * 4 + b / 16, b % 16 * 16 + c / 4]
  | _ => []

/-- Embedding of `base64.b64decode` (`binascii.a2b_base64` in its default
non-strict mode): characters outside the alphabet and `=` are discarded,
digits after the first `=` are ignored, a digit count of 1 mod 4 raises, an
incomplete final quantum not filled by padding raises Incorrect padding, and
`Except.error` carries the raised exception's text. -/
def pyB64decode (s : String) : Except String (List Nat) :=
  let kept := s.data.filter (fun c => (b64indexOf c).isSome || c = '=')
  let digits := (kept.takeWhile (fun c => c ≠ '=')).filterMap b64indexOf
  let pads := (kept.filter (fun c => c = '=')).length
  let r := digits.length % 4
  if r = 1 then
    Except.error
      "Invalid base64-encoded string: number of data characters cannot be 1 more than a multiple of 4"
  else if r ≠ 0 ∧ pads + r < 4 then Except.error "Incorrect padding"
  else Except.ok (b64decodeDigits digits)

/-- A tiny valid image for concrete runs: the canonical 35-byte 1×1 GIF plus
one trailing byte (ignored by the GIF reader), 36 bytes in all so that its
base64 encoding is unpadded. -/
def gifBytes : List Nat :=
  [71, 73, 70, 56, 57, 97, 1, 0, 1, 0, 128, 0, 0, 0, 0, 0, 255, 255, 255, 44,
   0, 0, 0, 0, 1, 0, 1, 0, 0, 2, 2, 68, 1, 0, 59, 0]

/-- The (unpadded, 48-character) base64 encoding of `gifBytes`. -/
def gifPayload : String := "R0lGODlhAQABAIAAAAAAAP///ywAAAAAAQABAAACAkQBADsA"

/-- A data URL carrying `gifPayload` as its second comma-separated field and
a further comma-separated "junk" field. -/
def gifDataUrl : String := "data:image/gif;base64," ++ gifPayload ++ ",junk"

/-- One part of a multimodal chat-message content list. -/
inductive ContentPart where
  | text (t : String)
  | image_url (url : String)
deriving DecidableEq

/-- The content of an outgoing chat message: a plain string or a part list. -/
inductive MsgContent where
  | str (s : String)
  | parts (ps : List ContentPart)
deriving DecidableEq

/-- An entry of the outgoing `messages` array. -/
structure ApiMessage where
  role : String
  content : MsgContent
deriving DecidableEq

/-- The text part of the user message (the last message appended), if any. -/
def sentUserTextPart (msgs : List ApiMessage) : Option String :=
  match msgs.getLast? with
  | some ⟨_, MsgContent.parts (ContentPart.text t :: _)⟩ => some t
  | _ => none

/-- State of a `gr.update` for the download button: visibility and file value. -/
structure DlUpdate where
  visible : Bool
  value : Option String
deriving DecidableEq

def hiddenDl : DlUpdate := ⟨false, none⟩

/-- The session-wide temporary-file state: the filesystem (path ↦ contents)
and the global `temp_files_to_clean` list. -/
structure FsState where
  files : List (String × String)
  cleanup : List String
deriving DecidableEq

/-- Writing a fresh `tempfile.NamedTemporaryFile`: the new entry shadows any
older entry at the same path. -/
def writeNewFile (p t : String) (fs : List (String × String)) : List (String × String) :=
  (p, t) :: fs

/-- Python `os.remove` with `FileNotFoundError` passed over: total removal. -/
def removeFile (fs : List (String × String)) (p : String) : List (String × String) :=
  fs.filter (fun e => e.1 ≠ p)

/-- Embedding of `cleanup_temp_files` (identical in the three stateful scripts):
delete every tracked path, skipping already-missing files. -/
def cleanup_temp_files (cleanup : List String) (files : List (String × String)) :
    List (String × String) :=
  cleanup.foldl removeFile files

/-- Modelled from the spec, for comparison with the code: the substring of a
data URL after its first comma (C8's wording). The code itself is compared
against this definition; it is not used by any embedding. -/
def afterFirstComma (s : String) : String :=
  match pySplitComma s with
  | [] => ""
  | _ :: rest => String.intercalate "," rest

/-- Truthiness of a handler result: did the handler raise a `gr.Error`? -/
def raisedGrError {α : Type} : Except String α → Bool
  | Except.error _ => true
  | Except.ok _ => false

namespace ImageAnalysis

/-- The request sent by openrouter-image-analysis.py. -/
structure Request where
  model : String
  messages : List ApiMessage
  max_tokens : Nat
deriving DecidableEq

/-- The triple returned to Gradio: text box, status box, download button. -/
structure Output where
  text : Option String
  status : String
  download : DlUpdate
deriving DecidableEq

/-- Payload construction of openrouter-image-analysis.py (lines 56-72). -/
def build_api_messages (prompt : String) (source_image : Option (List Nat)) :
    List ApiMessage :=
  match source_image with
  | none => [⟨"user", MsgContent.str prompt⟩]
  | some img =>
    let image_url := "data:image/jpeg;base64," ++ b64encode img
    [⟨"user", MsgContent.parts [ContentPart.text prompt, ContentPart.image_url image_url]⟩]

/-- Embedding of `get_vision_response`. The remote call is the `apiResult`
argument (`Except.error` = a raised exception, `Except.ok` = the message
content, which may be `None`). `newPath` is the fresh temporary-file path. -/
def get_vision_response (api_key : Option String) (prompt : String)
    (source_image : Option (List Nat)) (model_choice : String)
    (apiResult : Except String (Option String)) (newPath : String) (st : FsState) :
    Except String (Request × Output × FsState) :=
  let initial_download_update := hiddenDl
  if ¬ pyTruthyOptStr api_key then Except.error "OPENROUTER_API_KEY not set."
  else if pyStrip prompt = "" ∧ source_image = none then
    Except.error "Please enter a prompt (or upload an image)."
  else
    let prompt := if pyStrip prompt = "" then "Describe this image in detail." else prompt
    let api_messages := build_api_messages prompt source_image
    let req : Request := ⟨model_choice, api_messages, 32768⟩
    match apiResult with
    | Except.error e =>
      Except.ok (req, ⟨some "", "❌ An unexpected error occurred: " ++ e,
        initial_download_update⟩, st)
    | Except.ok text_response =>
      if pyTruthyOptStr text_response then
        let t := text_response.getD ""
        let st2 : FsState := ⟨writeNewFile newPath t st.files, st.cleanup ++ [newPath]⟩
        Except.ok (req, ⟨text_response, "✅ Analysis complete with " ++ model_choice ++ ".",
          ⟨true, some newPath⟩⟩, st2)
      else
        Except.ok (req, ⟨text_response, "✅ Analysis complete with " ++ model_choice ++ ".",
          initial_download_update⟩, st)

/-- The request actually sent, when one was sent. -/
def requestOf (r : Except String (Request × Output × FsState)) : Option Request :=
  match r with
  | Except.ok (req, _, _) => some req
  | Except.error _ => none

end ImageAnalysis

namespace ImageAnalyzis

/-- The request sent by openrouter-image-analyzis.py (fixed Grok model). -/
structure Request where
  model : String
  messages : List ApiMessage
  max_tokens : Nat
deriving DecidableEq

structure Output where
  text : Option String
  status : String
deriving DecidableEq

/-- Payload construction of openrouter-image-analyzis.py (lines 33-53). -/
def build_api_messages (prompt : String) (source_image : Option (List Nat)) :
    List ApiMessage :=
  match source_image with
  | none => [⟨"user", MsgContent.str prompt⟩]
  | some img =>
    let image_url := "data:image/jpeg;base64," ++ b64encode img
    [⟨"user", MsgContent.parts [ContentPart.text prompt, ContentPart.image_url image_url]⟩]

/-- Embedding of `get_grok_response`. -/
def get_grok_response (api_key : Option String) (prompt : String)
    (source_image : Option (List Nat))
    (apiResult : Except String (Option String)) :
    Except String (Request × Output) :=
  if ¬ pyTruthyOptStr api_key then Except.error "OPENROUTER_API_KEY not set."
  else if pyStrip prompt = "" ∧ source_image = none then
    Except.error "Please enter a prompt (or upload an image)."
  else
    let prompt := if pyStrip prompt = "" then "Describe this image in detail." else prompt
    let api_messages := build_api_messages prompt source_image
    let req : Request := ⟨"x-ai/grok-4-fast:free", api_messages, 4096⟩
    match apiResult with
    | Except.error e =>
      Except.ok (req, ⟨some "", "❌ An unexpected error occurred: " ++ e⟩)
    | Except.ok text_response =>
      Except.ok (req, ⟨text_response, "✅ Analysis complete."⟩)

def requestOf (r : Except String (Request × Output)) : Option Request :=
  match r with
  | Except.ok (req, _) => some req
  | Except.error _ => none

end ImageAnalyzis

namespace Part000

/-- The request sent by the unnamed multimodal script. -/
structure Request where
  model : String
  messages : List ApiMessage
  max_tokens : Nat
  extra_body_modalities : Bool
deriving DecidableEq

/-- The triple returned to Gradio: text box, image box, status box. -/
structure Output where
  text : String
  image : Option (List Nat)
  status : String
deriving DecidableEq

/-- A response message: `message.content` and the url of each entry of
`message.images` (absent attribute or empty list are both `[]`). -/
structure Message where
  content : Option String
  images : List String
deriving DecidableEq

/-- Payload construction of the unnamed script (lines 36-55). -/
def build_api_messages (prompt : String) (source_image : Option (List Nat)) :
    List ApiMessage :=
  match source_image with
  | some img =>
    let image_url := "data:image/jpeg;base64," ++ b64encode img
    [ApiMessage.mk "user"
      (MsgContent.parts [ContentPart.text prompt, ContentPart.image_url image_url])]
  | none => [ApiMessage.mk "user" (MsgContent.str prompt)]

/-- Embedding of `get_multimodal_response` of the unnamed script. `decode` is
the composition `Image.open` ∘ `BytesIO` ∘ `base64.b64decode`, with the
rendered image viewed as its byte result; `Except.error` is a raised
binascii/PIL exception, and it, like the `IndexError` of `url.split(",")[1]`
on a comma-free url, lands in the `except` branch. -/
def get_multimodal_response (api_key : Option String) (prompt : String)
    (source_image : Option (List Nat)) (model_choice : String)
    (decode : String → Except String (List Nat)) (apiResult : Except String Message) :
    Except String (Request × Output) :=
  if ¬ pyTruthyOptStr api_key then Except.error "OPENROUTER_API_KEY not set."
  else if prompt = "" ∧ source_image = none then
    Except.error "Please enter a prompt or upload an image."
  else
    let prompt := if source_image.isSome ∧ prompt = "" then "Describe this image in detail."
      else prompt
    let api_messages := build_api_messages prompt source_image
    let req : Request := ⟨model_choice, api_messages, 8192, source_image.isNone⟩
    match apiResult with
    | Except.error e =>
      Except.ok (req, ⟨"", none, "❌ An API error occurred: " ++ e⟩)
    | Except.ok message =>
      let text_response := message.content.getD ""
      match message.images with
      | [] =>
        Except.ok (req, ⟨text_response, none,
          "✅ Text response received from " ++ model_choice ++ "."⟩)
      | url :: _ =>
        match (pySplitComma url)[1]? with
        | none =>
          Except.ok (req, ⟨"", none, "❌ An API error occurred: list index out of range"⟩)
        | some base64_data =>
          match decode base64_data with
          | Except.error e =>
            Except.ok (req, ⟨"", none, "❌ An API error occurred: " ++ e⟩)
          | Except.ok image_output =>
            let text2 := if pyStrip text_response = "" then "Image generated successfully."
              else text_response
            Except.ok (req,
              ⟨text2, some image_output, "✅ Success with " ++ model_choice ++ "."⟩)

def requestOf (r : Except String (Request × Output)) : Option Request :=
  match r with
  | Except.ok (req, _) => some req
  | Except.error _ => none

end Part000

namespace Generator

/-- The request sent by openrouter-image-analysis-and-generator.py. -/
structure Request where
  model : String
  messages : List ApiMessage
  max_tokens : Nat
  extra_body_modalities : Bool
deriving DecidableEq

/-- The quadruple returned to Gradio: text box, image box, status box,
download button. -/
structure Output where
  text : String
  image : Option (List Nat)
  status : String
  download : DlUpdate
deriving DecidableEq

/-- A response message, as in `Part000.Message`. -/
structure Message where
  content : Option String
  images : List String
deriving DecidableEq

/-- The default model list of the generator script. -/
def default_models : List String :=
  ["x-ai/grok-4-fast:free",
   "qwen/qwen2.5-vl-72b-instruct:free",
   "google/gemini-2.0-flash-exp:free",
   "meta-llama/llama-4-maverick:free",
   "meta-llama/llama-4-scout:free",
   "mistralai/mistral-small-3.2-24b-instruct:free",
   "moonshotai/kimi-vl-a3b-thinking:free",
   "google/gemma-3-27b-it:free",
   "google/gemini-2.5-flash-image-preview",
   "meta-llama/llama-3.2-90b-vision-instruct"]

/-- Embedding of the generator's `load_models`: the file is `none` when
missing, otherwise its list of lines. -/
def load_models (fileContent : Option (List String)) : List String :=
  match fileContent with
  | none => default_models
  | some lines =>
    let models := lines.filterMap (fun line =>
      if pyStrip line ≠ "" then some (pyStrip line) else none)
    if models = [] then default_models else models

/-- Embedding of the generator's `load_system_prompt`. -/
def load_system_prompt (fileContent : Option String) : String :=
  match fileContent with
  | some c => pyStrip c
  | none => "You are a helpful multimodal AI assistant."

/-- Payload construction of the generator script (lines 98-122): optional
system message, then the (possibly multimodal) user message. -/
def build_api_messages (instructions prompt : String)
    (source_image : Option (List Nat)) : List ApiMessage :=
  let sysMessages : List ApiMessage :=
    if instructions ≠ "" ∧ pyStrip instructions ≠ "" then
      [⟨"system", MsgContent.str instructions⟩]
    else []
  match source_image with
  | some img =>
    let image_url := "data:image/jpeg;base64," ++ b64encode img
    sysMessages ++ [ApiMessage.mk "user"
      (MsgContent.parts [ContentPart.text prompt, ContentPart.image_url image_url])]
  | none => sysMessages ++ [ApiMessage.mk "user" (MsgContent.str prompt)]

/-- Embedding of the generator's `get_multimodal_response`. The mojibake in
the status strings is byte-faithful to the script. A temporary file is
written (and tracked) before the image-unpacking step, so an exception there
(the `IndexError` of `url.split(",")[1]`, or a binascii/PIL error from
`decode`, the composition `Image.open` ∘ `BytesIO` ∘ `base64.b64decode`)
lands in the `except` branch with the file already tracked. -/
def get_multimodal_response (api_key : Option String) (prompt : String)
    (source_image : Option (List Nat)) (model_choice : String)
    (instructions : String) (max_tokens : Nat)
    (decode : String → Except String (List Nat))
    (apiResult : Except String Message) (newPath : String) (st : FsState) :
    Except String (Request × Output × FsState) :=
  let initial_download_update := hiddenDl
  if ¬ pyTruthyOptStr api_key then Except.error "OPENROUTER_API_KEY not set."
  else if prompt = "" ∧ source_image = none then
    Except.error "Please enter a prompt or upload an image."
  else
    let prompt := if source_image.isSome ∧ prompt = "" then "Describe this image in detail."
      else prompt
    let api_messages := build_api_messages instructions prompt source_image
    let req : Request := ⟨model_choice, api_messages, max_tokens, source_image.isNone⟩
    match apiResult with
    | Except.error e =>
      Except.ok (req, ⟨"", none, "‚ùå An API error occurred: " ++ e,
        initial_download_update⟩, st)
    | Except.ok message =>
      let text_response := message.content.getD ""
      let withFile := text_response ≠ ""
      let st1 : FsState :=
        if withFile then ⟨writeNewFile newPath text_response st.files, st.cleanup ++ [newPath]⟩
        else st
      let download_update : DlUpdate :=
        if withFile then ⟨true, some newPath⟩ else initial_download_update
      match message.images with
      | [] =>
        Except.ok (req, ⟨text_response, none,
          "‚úÖ Text response received from " ++ model_choice ++ ".", download_update⟩, st1)
      | url :: _ =>
        match (pySplitComma url)[1]? with
        | none =>
          Except.ok (req, ⟨"", none, "‚ùå An API error occurred: list index out of range",
            initial_download_update⟩, st1)
        | some base64_data =>
          match decode base64_data with
          | Except.error e =>
            Except.ok (req, ⟨"", none, "‚ùå An API error occurred: " ++ e,
              initial_download_update⟩, st1)
          | Except.ok image_output =>
            let text2 := if pyStrip text_response = "" then "Image generated successfully."
              else text_response
            Except.ok (req, ⟨text2, some image_output,
              "‚úÖ Success with " ++ model_choice ++ ".", download_update⟩, st1)

def requestOf (r : Except String (Request × Output × FsState)) : Option Request :=
  match r with
  | Except.ok (req, _, _) => some req
  | Except.error _ => none

/-- The filesystem/cleanup state left by the handler. -/
def stateOf (st : FsState) (r : Except String (Request × Output × FsState)) : FsState :=
  match r with
  | Except.ok (_, _, st1) => st1
  | Except.error _ => st

end Generator

namespace TextChat

/-- The default model list of openrouter-text2text.py. -/
def default_models : List String :=
  ["x-ai/grok-4-fast:free",
   "openai/gpt-oss-120b:free",
   "google/gemini-2.0-flash-exp:free",
   "meta-llama/llama-3.1-405b-instruct:free",
   "qwen/qwen3-235b-a22b:free"]

/-- Embedding of `load_models` of openrouter-text2text.py. -/
def load_models (fileContent : Option (List String)) : List String :=
  match fileContent with
  | none => default_models
  | some lines =>
    let models := lines.filterMap (fun line =>
      if pyStrip line ≠ "" then some (pyStrip line) else none)
    if models = [] then default_models else models

/-- Embedding of `load_system_prompt` of openrouter-text2text.py. -/
def load_system_prompt (fileContent : Option String) : String :=
  match fileContent with
  | some c => pyStrip c
  | none => "You are a helpful assistant."

/-- The delta of the first choice of a stream chunk. -/
structure Delta where
  content : Option String
  reasoning : Option String
deriving DecidableEq

/-- A stream chunk together with the wall-clock value `time.time()` reads
while the chunk is processed. -/
structure Chunk where
  choices : List Delta
  now : ℚ
deriving DecidableEq

/-- One intermediate re-render (`yield` inside the loop): the assistant text
shown, the reasoning shown, the wall-clock time, and how many chunks had been
consumed when it fired. -/
structure YieldEvent where
  text : String
  reasoning : String
  time : ℚ
  seen : Nat
deriving DecidableEq

/-- The loop state of the streaming accumulation loop. -/
structure StreamState where
  full_content : String
  reasoning_content : String
  last_yield_time : ℚ
  yields : List YieldEvent
  seen : Nat
deriving DecidableEq

/-- The fixed flush interval `flush_interval_s = 0.04`. -/
def flush_interval_s : ℚ := 4 / 100

/-- The body of `for chunk in completion` (lines 123-143). -/
def streamStep (model_choice : String) (st : StreamState) (chunk : Chunk) : StreamState :=
  match chunk.choices with
  | [] => { st with seen := st.seen + 1 }
  | delta :: _ =>
    let new_content := pyOrNone delta.content
    let new_reasoning := pyOrNone delta.reasoning
    let full_content :=
      match new_content with
      | some s => st.full_content ++ s
      | none => st.full_content
    let reasoning0 :=
      match new_reasoning with
      | some s => st.reasoning_content ++ s
      | none => st.reasoning_content
    let reasoning_content :=
      if strContains model_choice "grok-4" ∧ reasoning0 = "" then
        "*This model does not expose reasoning traces.*"
      else reasoning0
    if flush_interval_s ≤ chunk.now - st.last_yield_time then
      { full_content := full_content
        reasoning_content := reasoning_content
        last_yield_time := chunk.now
        yields := st.yields ++ [⟨full_content, reasoning_content, chunk.now, st.seen + 1⟩]
        seen := st.seen + 1 }
    else
      { full_content := full_content
        reasoning_content := reasoning_content
        last_yield_time := st.last_yield_time
        yields := st.yields
        seen := st.seen + 1 }

/-- The whole accumulation loop, started with `last_yield_time = time.time()`
read at `t0`. -/
def runStream (model_choice : String) (t0 : ℚ) (chunks : List Chunk) : StreamState :=
  chunks.foldl (streamStep model_choice) ⟨"", "", t0, [], 0⟩

/-- The content delta a chunk contributes to `full_content`. -/
def chunkText (c : Chunk) : String :=
  match c.choices with
  | [] => ""
  | d :: _ => (pyOrNone d.content).getD ""

/-- In-order concatenation of all non-empty content deltas of a chunk list. -/
def contentConcat : List Chunk → String
  | [] => ""
  | c :: cs => chunkText c ++ contentConcat cs

/-- A chat-history entry (a Gradio message dict). -/
structure ChatMsg where
  role : String
  content : String
deriving DecidableEq

/-- The `request_params` dict of `chat_with_openai`, with the conditional
`extra_body` reasoning settings made explicit. -/
structure ChatRequest where
  model : String
  messages : List ChatMsg
  temperature : ℚ
  top_p : ℚ
  max_tokens : Nat
  stream : Bool
  reasoning_effort : Option String
  reasoning_enabled : Bool
deriving DecidableEq

/-- The `messages` list sent to the API: optional system message, then the
history (with the freshly appended user/assistant pair) minus empty
assistant entries (lines 77-89). -/
def assemble_messages (message instructions : String) (history : List ChatMsg) :
    List ChatMsg :=
  let history := history ++ [⟨"user", message⟩, ⟨"assistant", ""⟩]
  (if pyStrip instructions ≠ "" then [ChatMsg.mk "system" instructions] else [])
    ++ history.filter (fun m => ¬ (m.role = "assistant" ∧ m.content = ""))

/-- The `request_params` built on lines 93-113. -/
def build_request (model_choice : String) (msgs : List ChatMsg) (temperature : ℚ)
    (max_tokens : Nat) (effort : String) : ChatRequest :=
  let isOpenai := strContains model_choice "openai/gpt-oss"
    || strContains model_choice "openai/gpt-5"
  { model := model_choice
    messages := msgs
    temperature := temperature
    top_p := 1
    max_tokens := max_tokens
    stream := true
    reasoning_effort := if isOpenai then some effort else none
    reasoning_enabled := ¬ isOpenai ∧ strContains model_choice "x-ai/grok-4-fast"
      ∧ (effort = "medium" ∨ effort = "high") }

/-- The observable outcome of one call of the `chat_with_openai` generator. -/
inductive ChatResult where
  | earlyReturn (history : List ChatMsg) (msgOut : String) (reasoningOut : String)
      (download : DlUpdate)
  | streamed (request : ChatRequest) (run : StreamState) (finalText : String)
      (finalDownload : DlUpdate) (stAfter : FsState)
  | failed (request : ChatRequest) (lastContent : String) (reasoningOut : String)
      (download : DlUpdate) (stAfter : FsState)
deriving DecidableEq

/-- Embedding of `chat_with_openai`. The remote call is `apiResult`
(`Except.error` = `create` raised, `Except.ok chunks` = the received stream);
`t0` is the wall clock at `last_yield_time = time.time()`; `newPath` the
fresh temporary-file path. -/
def chat_with_openai (message : String) (history : List ChatMsg)
    (model_choice instructions : String) (temperature : ℚ) (max_tokens : Nat)
    (effort : String) (apiResult : Except String (List Chunk)) (t0 : ℚ)
    (newPath : String) (st : FsState) : ChatResult :=
  if pyStrip message = "" then
    ChatResult.earlyReturn history "" "*No reasoning generated yet...*" hiddenDl
  else
    let msgs := assemble_messages message instructions history
    let request := build_request model_choice msgs temperature max_tokens effort
    match apiResult with
    | Except.error e =>
      ChatResult.failed request ("❌ An error occurred: " ++ e)
        ("An error occurred: " ++ e) hiddenDl st
    | Except.ok chunks =>
      let run := runStream model_choice t0 chunks
      let st2 : FsState := ⟨writeNewFile newPath run.full_content st.files,
        st.cleanup ++ [newPath]⟩
      ChatResult.streamed request run run.full_content ⟨true, some newPath⟩ st2

/-- The loop invariant of the streaming accumulation loop: after processing
`processed`, the accumulated text is the concatenation of its content deltas,
every emitted re-render showed the concatenation of the deltas received up to
its chunk, consecutive re-render times (seeded with the loop start `t0`) are
at least `flush_interval_s` apart, and `last_yield_time` is the time of the
most recent re-render (or `t0`). -/
def StreamInv (t0 : ℚ) (processed : List Chunk) (st : StreamState) : Prop :=
  st.full_content = contentConcat processed ∧
  st.seen = processed.length ∧
  (∀ e ∈ st.yields, e.seen ≤ processed.length ∧
    e.text = contentConcat (processed.take e.seen)) ∧
  List.Chain' (fun a b => flush_interval_s ≤ b - a)
    (t0 :: st.yields.map YieldEvent.time) ∧
  st.last_yield_time = (st.yields.map YieldEvent.time).getLastD t0

end TextChat

end OpenRouter

namespace OpenRouter

theorem getLast?_cons_getLastD {α : Type} (a : α) (l : List α) :
    (a :: l).getLast? = some (l.getLastD a) := by
  induction l generalizing a with
  | nil => rfl
  | cons b l ih => rw [List.getLast?_cons_cons, ih, List.getLastD_cons]

namespace TextChat

theorem contentConcat_append_singleton (l : List Chunk) (c : Chunk) :
    contentConcat (l ++ [c]) = contentConcat l ++ chunkText c := by
  induction l with
  | nil => simp [contentConcat, String.append_empty, String.empty_append]
  | cons x xs ih => simp [contentConcat, ih, String.append_assoc]

theorem streamStep_full (mc : String) (st : StreamState) (c : Chunk) :
    (streamStep mc st c).full_content = st.full_content ++ chunkText c := by
  cases hc : c.choices with
  | nil => simp [streamStep, hc, chunkText, String.append_empty]
  | cons d ds =>
    cases hpc : pyOrNone d.content <;>
      by_cases hf : flush_interval_s ≤ c.now - st.last_yield_time <;>
        simp [streamStep, hc, chunkText, hpc, hf, String.append_empty]

theorem streamStep_seen (mc : String) (st : StreamState) (c : Chunk) :
    (streamStep mc st c).seen = st.seen + 1 := by
  cases hc : c.choices with
  | nil => simp [streamStep, hc]
  | cons d ds =>
    by_cases hf : flush_interval_s ≤ c.now - st.last_yield_time <;>
      simp [streamStep, hc, hf]

theorem streamStep_cases (mc : String) (st : StreamState) (c : Chunk) :
    ((streamStep mc st c).yields = st.yields ∧
      (streamStep mc st c).last_yield_time = st.last_yield_time) ∨
    ((streamStep mc st c).yields = st.yields ++
        [⟨st.full_content ++ chunkText c, (streamStep mc st c).reasoning_content,
          c.now, st.seen + 1⟩] ∧
      flush_interval_s ≤ c.now - st.last_yield_time ∧
      (streamStep mc st c).last_yield_time = c.now) := by
  cases hc : c.choices with
  | nil => left; simp [streamStep, hc]
  | cons d ds =>
    by_cases hf : flush_interval_s ≤ c.now - st.last_yield_time
    · right
      refine ⟨?_, hf, ?_⟩ <;>
        cases hpc : pyOrNone d.content <;>
          simp [streamStep, hc, hf, hpc, chunkText, String.append_empty]
    · left
      cases hpc : pyOrNone d.content <;> simp [streamStep, hc, hf, hpc]

theorem streamStep_inv (mc : String) (t0 : ℚ) (processed : List Chunk)
    (st : StreamState) (c : Chunk) (h : StreamInv t0 processed st) :
    StreamInv t0 (processed ++ [c]) (streamStep mc st c) := by
  obtain ⟨h1, h2, h3, h4, h5⟩ := h
  have hfull := streamStep_full mc st c
  have hseen := streamStep_seen mc st c
  have hlen : (processed ++ [c]).length = processed.length + 1 := by simp
  rcases streamStep_cases mc st c with ⟨hy, hl⟩ | ⟨hy, hf, hl⟩
  · refine ⟨?_, ?_, ?_, ?_, ?_⟩
    · rw [hfull, h1, contentConcat_append_singleton]
    · rw [hseen, h2, hlen]
    · intro e he
      rw [hy] at he
      obtain ⟨ha, hb⟩ := h3 e he
      refine ⟨by rw [hlen]; exact ha.trans (Nat.le_succ _), ?_⟩
      rw [List.take_append_of_le_length ha]
      exact hb
    · rw [hy]; exact h4
    · rw [hl, hy]; exact h5
  · refine ⟨?_, ?_, ?_, ?_, ?_⟩
    · rw [hfull, h1, contentConcat_append_singleton]
    · rw [hseen, h2, hlen]
    · intro e he
      rw [hy] at he
      rcases List.mem_append.1 he with hold | hnew
      · obtain ⟨ha, hb⟩ := h3 e hold
        refine ⟨by rw [hlen]; exact ha.trans (Nat.le_succ _), ?_⟩
        rw [List.take_append_of_le_length ha]
        exact hb
      · have heq : e = ⟨st.full_content ++ chunkText c,
            (streamStep mc st c).reasoning_content, c.now, st.seen + 1⟩ := by
          simpa using hnew
        subst heq
        refine ⟨by rw [hlen, h2], ?_⟩
        have ht : (processed ++ [c]).take (st.seen + 1) = processed ++ [c] := by
          rw [h2, show processed.length + 1 = (processed ++ [c]).length by simp,
            List.take_length]
        rw [ht, contentConcat_append_singleton, h1]
    · rw [hy]
      have hsplit : t0 :: (st.yields ++
          [YieldEvent.mk (st.full_content ++ chunkText c)
            (streamStep mc st c).reasoning_content c.now (st.seen + 1)]).map YieldEvent.time
          = (t0 :: st.yields.map YieldEvent.time) ++ [c.now] := by simp
      rw [hsplit]
      refine List.chain'_append.2 ⟨h4, List.chain'_singleton _, ?_⟩
      intro x hx y hy2
      rw [getLast?_cons_getLastD] at hx
      rw [List.head?_cons] at hy2
      rw [Option.mem_def, Option.some.injEq] at hx hy2
      rw [← hx, ← hy2, ← h5]
      exact hf
    · rw [hl, hy]; simp

theorem runStream_inv (mc : String) (t0 : ℚ) (chunks : List Chunk) :
    StreamInv t0 chunks (runStream mc t0 chunks) := by
  have base : StreamInv t0 [] ⟨"", "", t0, [], 0⟩ :=
    ⟨rfl, rfl, by simp, by simp, rfl⟩
  have aux : ∀ (cs : List Chunk) (processed : List Chunk) (st : StreamState),
      StreamInv t0 processed st →
      StreamInv t0 (processed ++ cs) (cs.foldl (streamStep mc) st) := by
    intro cs
    induction cs with
    | nil => intro processed st h; simpa using h
    | cons c cs ih =>
      intro processed st h
      have h2 := ih (processed ++ [c]) (streamStep mc st c)
        (streamStep_inv mc t0 processed st c h)
      simpa using h2
  simpa using aux chunks [] _ base

/-- C1: in the streaming chat handler `chat_with_openai`, for every sequence
of stream chunks the text delivered by each intermediate re-render equals the
in-order concatenation of the non-empty content deltas of the chunks received
so far, an intermediate re-render fires only when at least the fixed flush
interval `flush_interval_s = 0.04` seconds of wall-clock time has elapsed
since the previous re-render (the loop start for the first one), and after
the stream ends the final yield delivers the complete accumulated text. -/
theorem c1_streaming_accumulation_and_cadence
    (message : String) (history : List ChatMsg) (model_choice instructions : String)
    (temperature : ℚ) (max_tokens : Nat) (effort : String) (chunks : List Chunk)
    (t0 : ℚ) (newPath : String) (st : FsState)
    (hmsg : pyStrip message ≠ "") :
    chat_with_openai message history model_choice instructions temperature max_tokens
        effort (Except.ok chunks) t0 newPath st
      = ChatResult.streamed
          (build_request model_choice (assemble_messages message instructions history)
            temperature max_tokens effort)
          (runStream model_choice t0 chunks) (contentConcat chunks)
          ⟨true, some newPath⟩
          ⟨writeNewFile newPath (contentConcat chunks) st.files,
            st.cleanup ++ [newPath]⟩ ∧
    (runStream model_choice t0 chunks).full_content = contentConcat chunks ∧
    (∀ e ∈ (runStream model_choice t0 chunks).yields,
      e.seen ≤ chunks.length ∧ e.text = contentConcat (chunks.take e.seen)) ∧
    List.Chain' (fun a b => flush_interval_s ≤ b - a)
      (t0 :: (runStream model_choice t0 chunks).yields.map YieldEvent.time) := by
  obtain ⟨hfull, hseen, hyields, hchain, hlast⟩ := runStream_inv model_choice t0 chunks
  refine ⟨?_, hfull, hyields, hchain⟩
  rw [← hfull]
  simp [chat_with_openai, hmsg]

/-- Witness for C1 at a concrete input. -/
theorem c1_streaming_accumulation_and_cadence_witness :
    pyStrip "hi" ≠ "" ∧
    (chat_with_openai "hi" [] "m" "" 1 8 "medium" (Except.ok []) 0 "/tmp/a.md" ⟨[], []⟩
      = ChatResult.streamed
          (build_request "m" (assemble_messages "hi" "" []) 1 8 "medium")
          (runStream "m" 0 []) (contentConcat [])
          ⟨true, some "/tmp/a.md"⟩
          ⟨writeNewFile "/tmp/a.md" (contentConcat []) [], [] ++ ["/tmp/a.md"]⟩ ∧
    (runStream "m" 0 []).full_content = contentConcat [] ∧
    (∀ e ∈ (runStream "m" 0 []).yields,
      e.seen ≤ ([] : List Chunk).length ∧ e.text = contentConcat (([] : List Chunk).take e.seen)) ∧
    List.Chain' (fun a b => flush_interval_s ≤ b - a)
      (0 :: (runStream "m" 0 []).yields.map YieldEvent.time)) :=
  ⟨by decide, c1_streaming_accumulation_and_cadence "hi" [] "m" "" 1 8 "medium" [] 0
    "/tmp/a.md" ⟨[], []⟩ (by decide)⟩

/-- C10: a call of `chat_with_openai` whose message is empty or
whitespace-only returns immediately with the history unchanged, no API
request, the placeholder reasoning text, and the download button hidden. -/
theorem c10_blank_message_early_return
    (message : String) (history : List ChatMsg) (model_choice instructions : String)
    (temperature : ℚ) (max_tokens : Nat) (effort : String)
    (apiResult : Except String (List Chunk)) (t0 : ℚ) (newPath : String) (st : FsState)
    (hmsg : pyStrip message = "") :
    chat_with_openai message history model_choice instructions temperature max_tokens
        effort apiResult t0 newPath st
      = ChatResult.earlyReturn history "" "*No reasoning generated yet...*" hiddenDl := by
  simp [chat_with_openai, hmsg]

/-- Witness for C10 at a concrete input. -/
theorem c10_blank_message_early_return_witness :
    pyStrip "   " = "" ∧
    chat_with_openai "   " [⟨"user", "old"⟩] "m" "sys" 1 8 "low"
        (Except.ok []) 0 "/tmp/b.md" ⟨[], []⟩
      = ChatResult.earlyReturn [⟨"user", "old"⟩] "" "*No reasoning generated yet...*"
          hiddenDl :=
  ⟨by decide, c10_blank_message_early_return "   " [⟨"user", "old"⟩] "m" "sys" 1 8 "low"
    (Except.ok []) 0 "/tmp/b.md" ⟨[], []⟩ (by decide)⟩

end TextChat

theorem stripped_lines_eq (lines : List String) :
    lines.filterMap (fun line => if pyStrip line ≠ "" then some (pyStrip line) else none)
      = (lines.map pyStrip).filter (fun s => s ≠ "") := by
  induction lines with
  | nil => rfl
  | cons l ls ih =>
    by_cases h : pyStrip l = "" <;> simpa [h] using ih

/-- C6: `load_models` returns the whitespace-stripped non-empty lines of the
models file in file order, falling back to the built-in default list when the
file is missing or holds no non-empty line; `load_system_prompt` returns the
stripped file contents or the built-in default prompt when missing. Both the
text2text script's loaders and the generator script's loaders behave so. -/
theorem c6_config_file_loading :
    (∀ lines, TextChat.load_models (some lines)
        = (if (lines.map pyStrip).filter (fun s => s ≠ "") = []
            then TextChat.default_models
            else (lines.map pyStrip).filter (fun s => s ≠ ""))) ∧
    TextChat.load_models none = TextChat.default_models ∧
    (∀ c, TextChat.load_system_prompt (some c) = pyStrip c) ∧
    TextChat.load_system_prompt none = "You are a helpful assistant." ∧
    (∀ lines, Generator.load_models (some lines)
        = (if (lines.map pyStrip).filter (fun s => s ≠ "") = []
            then Generator.default_models
            else (lines.map pyStrip).filter (fun s => s ≠ ""))) ∧
    Generator.load_models none = Generator.default_models ∧
    (∀ c, Generator.load_system_prompt (some c) = pyStrip c) ∧
    Generator.load_system_prompt none = "You are a helpful multimodal AI assistant." := by
  refine ⟨?_, rfl, fun c => rfl, rfl, ?_, rfl, fun c => rfl, rfl⟩ <;>
    intro lines <;>
      simp only [TextChat.load_models, Generator.load_models, stripped_lines_eq]

theorem cleanup_temp_files_eq_filter (cl : List String) (fs : List (String × String)) :
    cleanup_temp_files cl fs = fs.filter (fun e => !(cl.contains e.1)) := by
  induction cl generalizing fs with
  | nil =>
    show fs = _
    simp
  | cons q qs ih =>
    show cleanup_temp_files qs (removeFile fs q) = _
    rw [ih, removeFile, List.filter_filter]
    congr 1
    funext e
    simp [List.contains_cons, Bool.not_or, Bool.and_comm]

theorem lookup_cleanup_eq_none (cl : List String) (fs : List (String × String))
    (p : String) (hp : p ∈ cl) : (cleanup_temp_files cl fs).lookup p = none := by
  rw [cleanup_temp_files_eq_filter]
  induction fs with
  | nil => rfl
  | cons e fs ih =>
    obtain ⟨k, v⟩ := e
    by_cases h : cl.contains k = true
    · have hcond : (!(cl.contains k)) = false := by rw [h]; rfl
      rw [List.filter_cons]
      rw [hcond]
      simpa using ih
    · have hcond : (!(cl.contains k)) = true := by
        cases hcl : cl.contains k
        · rfl
        · exact absurd hcl h
      have hne : (p == k) = false := by
        apply beq_eq_false_iff_ne.2
        intro hpe
        exact h (List.elem_iff.2 (hpe ▸ hp))
      rw [List.filter_cons, hcond]
      rw [if_pos rfl]
      simp only [List.lookup, hne]
      simpa using ih

/-- C5: on a successful response with non-empty text, `get_vision_response`
writes a temporary file whose contents are exactly that text, appends its
path to the session-wide cleanup list, and returns the download button
visible and pointing at it; `cleanup_temp_files` deletes every tracked path
(it filters the tracked paths out of the filesystem, a total operation that
silently skips already-missing files), so every tracked path is absent
afterwards. -/
theorem c5_temp_file_and_cleanup
    (api_key : Option String) (prompt : String) (source_image : Option (List Nat))
    (model_choice t newPath : String) (st : FsState)
    (cl : List String) (fs : List (String × String)) (p : String)
    (hk : pyTruthyOptStr api_key = true)
    (hv : ¬ (pyStrip prompt = "" ∧ source_image = none))
    (ht : t ≠ "") (hp : p ∈ cl) :
    ImageAnalysis.get_vision_response api_key prompt source_image model_choice
        (Except.ok (some t)) newPath st
      = Except.ok (⟨model_choice, ImageAnalysis.build_api_messages
            (if pyStrip prompt = "" then "Describe this image in detail." else prompt)
            source_image, 32768⟩,
          ⟨some t, "✅ Analysis complete with " ++ model_choice ++ ".",
            ⟨true, some newPath⟩⟩,
          ⟨(newPath, t) :: st.files, st.cleanup ++ [newPath]⟩) ∧
    ((newPath, t) :: st.files).lookup newPath = some t ∧
    cleanup_temp_files cl fs = fs.filter (fun e => !(cl.contains e.1)) ∧
    (cleanup_temp_files cl fs).lookup p = none := by
  refine ⟨?_, by simp [List.lookup], cleanup_temp_files_eq_filter cl fs,
    lookup_cleanup_eq_none cl fs p hp⟩
  have ht2 : pyTruthyOptStr (some t) = true := by simp [pyTruthyOptStr, ht]
  simp [ImageAnalysis.get_vision_response, hk, hv, ht2, writeNewFile]

theorem generator_validation_raises_iff (api_key : Option String) (prompt : String)
    (source_image : Option (List Nat)) (model_choice instructions : String)
    (max_tokens : Nat) (decode : String → Except String (List Nat))
    (apiResult : Except String Generator.Message) (newPath : String) (st : FsState)
    (hk : pyTruthyOptStr api_key = true) :
    raisedGrError (Generator.get_multimodal_response api_key prompt source_image
        model_choice instructions max_tokens decode apiResult newPath st) = true
      ↔ (prompt = "" ∧ source_image = none) := by
  by_cases hv : prompt = "" ∧ source_image = none
  · simp only [Generator.get_multimodal_response]
    rw [if_neg (by simp [hk]), if_pos hv]
    simp [raisedGrError, hv]
  · simp only [Generator.get_multimodal_response]
    rw [if_neg (by simp [hk]), if_neg hv]
    rcases apiResult with e | message
    · simp [raisedGrError, hv]
    · rcases message with ⟨content, images⟩
      rcases images with _ | ⟨url, rest⟩
      · simp [raisedGrError, hv]
      · rcases hf : (pySplitComma url)[1]? with _ | f
        · simp [raisedGrError, hv, hf]
        · rcases hd : decode f with e2 | img <;> simp [raisedGrError, hv, hf, hd]

theorem part000_validation_raises_iff (api_key : Option String) (prompt : String)
    (source_image : Option (List Nat)) (model_choice : String)
    (decode : String → Except String (List Nat)) (apiResult : Except String Part000.Message)
    (hk : pyTruthyOptStr api_key = true) :
    raisedGrError (Part000.get_multimodal_response api_key prompt source_image
        model_choice decode apiResult) = true
      ↔ (prompt = "" ∧ source_image = none) := by
  by_cases hv : prompt = "" ∧ source_image = none
  · simp only [Part000.get_multimodal_response]
    rw [if_neg (by simp [hk]), if_pos hv]
    simp [raisedGrError, hv]
  · simp only [Part000.get_multimodal_response]
    rw [if_neg (by simp [hk]), if_neg hv]
    rcases apiResult with e | message
    · simp [raisedGrError, hv]
    · rcases message with ⟨content, images⟩
      rcases images with _ | ⟨url, rest⟩
      · simp [raisedGrError, hv]
      · rcases hf : (pySplitComma url)[1]? with _ | f
        · simp [raisedGrError, hv, hf]
        · rcases hd : decode f with e2 | img <;> simp [raisedGrError, hv, hf, hd]

theorem vision_validation_raises_iff (api_key : Option String) (prompt : String)
    (source_image : Option (List Nat)) (model_choice : String)
    (apiResult : Except String (Option String)) (newPath : String) (st : FsState)
    (hk : pyTruthyOptStr api_key = true) :
    raisedGrError (ImageAnalysis.get_vision_response api_key prompt source_image
        model_choice apiResult newPath st) = true
      ↔ (pyStrip prompt = "" ∧ source_image = none) := by
  by_cases hv : pyStrip prompt = "" ∧ source_image = none
  · simp only [ImageAnalysis.get_vision_response]
    rw [if_neg (by simp [hk]), if_pos hv]
    simp [raisedGrError, hv]
  · simp only [ImageAnalysis.get_vision_response]
    rw [if_neg (by simp [hk]), if_neg hv]
    rcases apiResult with e | t
    · simp [raisedGrError, hv]
    · by_cases htr : pyTruthyOptStr t = true <;> simp [raisedGrError, hv, htr]

theorem grok_validation_raises_iff (api_key : Option String) (prompt : String)
    (source_image : Option (List Nat))
    (apiResult : Except String (Option String))
    (hk : pyTruthyOptStr api_key = true) :
    raisedGrError (ImageAnalyzis.get_grok_response api_key prompt source_image
        apiResult) = true
      ↔ (pyStrip prompt = "" ∧ source_image = none) := by
  by_cases hv : pyStrip prompt = "" ∧ source_image = none
  · simp only [ImageAnalyzis.get_grok_response]
    rw [if_neg (by simp [hk]), if_pos hv]
    simp [raisedGrError, hv]
  · simp only [ImageAnalyzis.get_grok_response]
    rw [if_neg (by simp [hk]), if_neg hv]
    rcases apiResult with e | t <;> simp [raisedGrError, hv]

/-- C2 is refuted as stated, under either reading of a "present" prompt: a
whitespace-only prompt is a present (non-empty) prompt, yet
`get_vision_response` raises its validation error on it when no image is
uploaded; and under the blank-means-absent reading, the generator's
`get_multimodal_response` raises no validation error on a whitespace-only
prompt with no image, although neither a prompt nor an image is present. -/
theorem c2_counterexample :
    ("   " : String) ≠ "" ∧
    ImageAnalysis.get_vision_response (some "k") "   " none "m"
        (Except.ok (some "r")) "/tmp/r.md" ⟨[], []⟩
      = Except.error "Please enter a prompt (or upload an image)." ∧
    pyStrip "   " = "" ∧
    raisedGrError (Generator.get_multimodal_response (some "k") "   " none "m" "" 100
        pyB64decode (Except.ok ⟨some "t", []⟩) "/tmp/r.md" ⟨[], []⟩) = false :=
  ⟨by decide, rfl, by decide, rfl⟩

/-- C2 amended: given a present API key, each single-shot handler raises a
user-visible validation error iff its own presence check fails — the
multimodal handlers (`get_multimodal_response` of the generator and of the
unnamed script) iff the prompt is the empty string and no image is uploaded,
and the analysis handlers (`get_vision_response`, `get_grok_response`) iff
the prompt is empty or whitespace-only and no image is uploaded; when the
check passes, no validation error is raised and a request payload is built. -/
theorem c2_amended_validation_iff (api_key : Option String) (prompt : String)
    (source_image : Option (List Nat)) (model_choice instructions : String)
    (max_tokens : Nat) (decode : String → Except String (List Nat))
    (apiResult1 : Except String Generator.Message)
    (apiResult2 : Except String Part000.Message)
    (apiResult3 apiResult4 : Except String (Option String))
    (newPath : String) (st : FsState)
    (hk : pyTruthyOptStr api_key = true) :
    (raisedGrError (Generator.get_multimodal_response api_key prompt source_image
        model_choice instructions max_tokens decode apiResult1 newPath st) = true
      ↔ (prompt = "" ∧ source_image = none)) ∧
    (raisedGrError (Part000.get_multimodal_response api_key prompt source_image
        model_choice decode apiResult2) = true
      ↔ (prompt = "" ∧ source_image = none)) ∧
    (raisedGrError (ImageAnalysis.get_vision_response api_key prompt source_image
        model_choice apiResult3 newPath st) = true
      ↔ (pyStrip prompt = "" ∧ source_image = none)) ∧
    (raisedGrError (ImageAnalyzis.get_grok_response api_key prompt source_image
        apiResult4) = true
      ↔ (pyStrip prompt = "" ∧ source_image = none)) :=
  ⟨generator_validation_raises_iff api_key prompt source_image model_choice instructions
      max_tokens decode apiResult1 newPath st hk,
   part000_validation_raises_iff api_key prompt source_image model_choice decode
      apiResult2 hk,
   vision_validation_raises_iff api_key prompt source_image model_choice apiResult3
      newPath st hk,
   grok_validation_raises_iff api_key prompt source_image apiResult4 hk⟩

/-- Witness for C2's amended theorem at a concrete input. -/
theorem c2_amended_validation_iff_witness :
    pyTruthyOptStr (some "k") = true ∧
    ((raisedGrError (Generator.get_multimodal_response (some "k") "" none
        "m" "" 100 pyB64decode (Except.ok ⟨some "t", []⟩) "/tmp/w.md" ⟨[], []⟩) = true
      ↔ (("" : String) = "" ∧ (none : Option (List Nat)) = none)) ∧
    (raisedGrError (Part000.get_multimodal_response (some "k") "" none
        "m" pyB64decode (Except.ok ⟨some "t", []⟩)) = true
      ↔ (("" : String) = "" ∧ (none : Option (List Nat)) = none)) ∧
    (raisedGrError (ImageAnalysis.get_vision_response (some "k") "" none
        "m" (Except.ok (some "t")) "/tmp/w.md" ⟨[], []⟩) = true
      ↔ (pyStrip "" = "" ∧ (none : Option (List Nat)) = none)) ∧
    (raisedGrError (ImageAnalyzis.get_grok_response (some "k") "" none
        (Except.ok (some "t"))) = true
      ↔ (pyStrip "" = "" ∧ (none : Option (List Nat)) = none))) :=
  ⟨by decide, c2_amended_validation_iff (some "k") "" none "m" "" 100 pyB64decode
    (Except.ok ⟨some "t", []⟩) (Except.ok ⟨some "t", []⟩) (Except.ok (some "t"))
    (Except.ok (some "t")) "/tmp/w.md" ⟨[], []⟩ (by decide)⟩

/-- C3 is refuted as stated: the missing-credential failure is not caught at
the top level of the handler and surfaced as an error string; the handler
raises a `gr.Error` (the `Except.error` result) before the try block. -/
theorem c3_counterexample :
    ImageAnalysis.get_vision_response none "hello" none "m"
        (Except.ok (some "r")) "/tmp/r.md" ⟨[], []⟩
      = Except.error "OPENROUTER_API_KEY not set." ∧
    raisedGrError (ImageAnalysis.get_vision_response none "hello" none "m"
        (Except.ok (some "r")) "/tmp/r.md" ⟨[], []⟩) = true :=
  ⟨rfl, rfl⟩

/-- C3 amended: an exception raised by the API call is caught at the top
level of the handler and surfaced as an error string that carries the raw
exception text verbatim, with no categorization, retry or recovery (the
handler returns normally with the error text appended to a fixed prefix) —
in `get_vision_response` and in the streaming `chat_with_openai` alike; a
missing API credential, by contrast, raises `gr.Error` out of the handler
before the try block instead of being caught inside it. -/
theorem c3_amended_error_surfacing :
    (∀ (api_key : Option String) (prompt : String) (source_image : Option (List Nat))
        (model_choice e newPath : String) (st : FsState),
      pyTruthyOptStr api_key = true →
      ¬ (pyStrip prompt = "" ∧ source_image = none) →
      ImageAnalysis.get_vision_response api_key prompt source_image model_choice
          (Except.error e) newPath st
        = Except.ok (⟨model_choice, ImageAnalysis.build_api_messages
              (if pyStrip prompt = "" then "Describe this image in detail." else prompt)
              source_image, 32768⟩,
            ⟨some "", "❌ An unexpected error occurred: " ++ e, hiddenDl⟩, st)) ∧
    (∀ (message : String) (history : List TextChat.ChatMsg)
        (model_choice instructions : String) (temperature : ℚ) (max_tokens : Nat)
        (effort e : String) (t0 : ℚ) (newPath : String) (st : FsState),
      pyStrip message ≠ "" →
      TextChat.chat_with_openai message history model_choice instructions temperature
          max_tokens effort (Except.error e) t0 newPath st
        = TextChat.ChatResult.failed
            (TextChat.build_request model_choice
              (TextChat.assemble_messages message instructions history)
              temperature max_tokens effort)
            ("❌ An error occurred: " ++ e) ("An error occurred: " ++ e) hiddenDl st) ∧
    (∀ (prompt : String) (source_image : Option (List Nat)) (model_choice : String)
        (apiResult : Except String (Option String)) (newPath : String) (st : FsState),
      ImageAnalysis.get_vision_response none prompt source_image model_choice
          apiResult newPath st
        = Except.error "OPENROUTER_API_KEY not set.") := by
  refine ⟨?_, ?_, ?_⟩
  · intro api_key prompt source_image model_choice e newPath st hk hv
    simp [ImageAnalysis.get_vision_response, hk, hv]
  · intro message history model_choice instructions temperature max_tokens effort e t0
      newPath st hmsg
    simp [TextChat.chat_with_openai, hmsg]
  · intro prompt source_image model_choice apiResult newPath st
    simp [ImageAnalysis.get_vision_response, pyTruthyOptStr]

/-- Witness for C3's amended theorem at a concrete input. -/
theorem c3_amended_error_surfacing_witness :
    pyTruthyOptStr (some "k") = true ∧
    ¬ (pyStrip "hello" = "" ∧ (none : Option (List Nat)) = none) ∧
    pyStrip "hello" ≠ "" ∧
    (ImageAnalysis.get_vision_response (some "k") "hello" none "m"
        (Except.error "boom") "/tmp/e.md" ⟨[], []⟩
      = Except.ok (⟨"m", ImageAnalysis.build_api_messages
            (if pyStrip "hello" = "" then "Describe this image in detail." else "hello")
            none, 32768⟩,
          ⟨some "", "❌ An unexpected error occurred: " ++ "boom", hiddenDl⟩,
          ⟨[], []⟩)) ∧
    (TextChat.chat_with_openai "hello" [] "m" "" 1 8 "low"
        (Except.error "boom") 0 "/tmp/e.md" ⟨[], []⟩
      = TextChat.ChatResult.failed
          (TextChat.build_request "m" (TextChat.assemble_messages "hello" "" []) 1 8 "low")
          ("❌ An error occurred: " ++ "boom") ("An error occurred: " ++ "boom")
          hiddenDl ⟨[], []⟩) ∧
    (ImageAnalysis.get_vision_response none "hello" none "m"
        (Except.ok (some "r")) "/tmp/e.md" ⟨[], []⟩
      = Except.error "OPENROUTER_API_KEY not set.") :=
  ⟨by decide, by decide, by decide,
    c3_amended_error_surfacing.1 (some "k") "hello" none "m" "boom" "/tmp/e.md"
      ⟨[], []⟩ (by decide) (by decide),
    c3_amended_error_surfacing.2.1 "hello" [] "m" "" 1 8 "low" "boom" 0 "/tmp/e.md"
      ⟨[], []⟩ (by decide),
    c3_amended_error_surfacing.2.2 "hello" none "m" (Except.ok (some "r")) "/tmp/e.md"
      ⟨[], []⟩⟩

/-- Witness for C5 at a concrete input. -/
theorem c5_temp_file_and_cleanup_witness :
    pyTruthyOptStr (some "key") = true ∧
    ¬ (pyStrip "what is this?" = "" ∧ (some [255] : Option (List Nat)) = none) ∧
    ("a reply" : String) ≠ "" ∧ "/tmp/c.md" ∈ ["/tmp/c.md"] ∧
    (ImageAnalysis.get_vision_response (some "key") "what is this?" (some [255]) "m"
        (Except.ok (some "a reply")) "/tmp/c.md" ⟨[("/old", "o")], ["/old"]⟩
      = Except.ok (⟨"m", ImageAnalysis.build_api_messages
            (if pyStrip "what is this?" = "" then "Describe this image in detail."
              else "what is this?")
            (some [255]), 32768⟩,
          ⟨some "a reply", "✅ Analysis complete with " ++ "m" ++ ".",
            ⟨true, some "/tmp/c.md"⟩⟩,
          ⟨("/tmp/c.md", "a reply") :: [("/old", "o")], ["/old"] ++ ["/tmp/c.md"]⟩) ∧
    (("/tmp/c.md", "a reply") :: [("/old", "o")]).lookup "/tmp/c.md" = some "a reply" ∧
    cleanup_temp_files ["/tmp/c.md"] [("/tmp/c.md", "a reply")]
      = [("/tmp/c.md", "a reply")].filter (fun e => !(["/tmp/c.md"].contains e.1)) ∧
    (cleanup_temp_files ["/tmp/c.md"] [("/tmp/c.md", "a reply")]).lookup "/tmp/c.md"
      = none) :=
  ⟨by decide, by decide, by decide, by decide,
    c5_temp_file_and_cleanup (some "key") "what is this?" (some [255]) "m" "a reply"
      "/tmp/c.md" ⟨[("/old", "o")], ["/old"]⟩ ["/tmp/c.md"] [("/tmp/c.md", "a reply")]
      "/tmp/c.md" (by decide) (by decide) (by decide) (by decide)⟩

theorem vision_requestOf_image_eq (api_key : Option String) (prompt : String)
    (img : List Nat) (model_choice : String) (r : Except String (Option String))
    (newPath : String) (st : FsState) (hk : pyTruthyOptStr api_key = true) :
    ImageAnalysis.requestOf (ImageAnalysis.get_vision_response api_key prompt (some img)
        model_choice r newPath st)
      = some ⟨model_choice,
          [⟨"user", MsgContent.parts
            [ContentPart.text (if pyStrip prompt = "" then "Describe this image in detail."
                else prompt),
             ContentPart.image_url ("data:image/jpeg;base64," ++ b64encode img)]⟩],
          32768⟩ := by
  simp only [ImageAnalysis.get_vision_response]
  rw [if_neg (by simp [hk]), if_neg (by simp)]
  rcases r with e | t
  · rfl
  · dsimp only
    split <;> rfl

theorem grok_requestOf_image_eq (api_key : Option String) (prompt : String)
    (img : List Nat) (r : Except String (Option String))
    (hk : pyTruthyOptStr api_key = true) :
    ImageAnalyzis.requestOf (ImageAnalyzis.get_grok_response api_key prompt (some img) r)
      = some ⟨"x-ai/grok-4-fast:free",
          [⟨"user", MsgContent.parts
            [ContentPart.text (if pyStrip prompt = "" then "Describe this image in detail."
                else prompt),
             ContentPart.image_url ("data:image/jpeg;base64," ++ b64encode img)]⟩],
          4096⟩ := by
  simp only [ImageAnalyzis.get_grok_response]
  rw [if_neg (by simp [hk]), if_neg (by simp)]
  rcases r with e | t <;> rfl

theorem part000_requestOf_image_eq (api_key : Option String) (prompt : String)
    (img : List Nat) (model_choice : String) (decode : String → Except String (List Nat))
    (r : Except String Part000.Message) (hk : pyTruthyOptStr api_key = true) :
    Part000.requestOf (Part000.get_multimodal_response api_key prompt (some img)
        model_choice decode r)
      = some ⟨model_choice,
          [⟨"user", MsgContent.parts
            [ContentPart.text (if prompt = "" then "Describe this image in detail."
                else prompt),
             ContentPart.image_url ("data:image/jpeg;base64," ++ b64encode img)]⟩],
          8192, false⟩ := by
  simp only [Part000.get_multimodal_response]
  rw [if_neg (by simp [hk]), if_neg (by simp)]
  rcases r with e | message
  · simp [Part000.requestOf, Part000.build_api_messages]
  · rcases message with ⟨content, images⟩
    rcases images with _ | ⟨url, rest⟩
    · simp [Part000.requestOf, Part000.build_api_messages]
    · rcases hf : (pySplitComma url)[1]? with _ | f
      · simp [Part000.requestOf, Part000.build_api_messages, hf]
      · rcases hd : decode f with e2 | img <;>
          simp [Part000.requestOf, Part000.build_api_messages, hf, hd]

theorem generator_requestOf_image_eq (api_key : Option String) (prompt : String)
    (img : List Nat) (model_choice instructions : String) (max_tokens : Nat)
    (decode : String → Except String (List Nat)) (r : Except String Generator.Message)
    (newPath : String) (st : FsState) (hk : pyTruthyOptStr api_key = true) :
    Generator.requestOf (Generator.get_multimodal_response api_key prompt (some img)
        model_choice instructions max_tokens decode r newPath st)
      = some ⟨model_choice,
          (if instructions ≠ "" ∧ pyStrip instructions ≠ "" then
            [⟨"system", MsgContent.str instructions⟩] else [])
          ++ [⟨"user", MsgContent.parts
            [ContentPart.text (if prompt = "" then "Describe this image in detail."
                else prompt),
             ContentPart.image_url ("data:image/jpeg;base64," ++ b64encode img)]⟩],
          max_tokens, false⟩ := by
  simp only [Generator.get_multimodal_response]
  rw [if_neg (by simp [hk]), if_neg (by simp)]
  rcases r with e | message
  · simp [Generator.requestOf, Generator.build_api_messages]
  · rcases message with ⟨content, images⟩
    rcases images with _ | ⟨url, rest⟩
    · simp [Generator.requestOf, Generator.build_api_messages]
    · rcases hf : (pySplitComma url)[1]? with _ | f
      · simp [Generator.requestOf, Generator.build_api_messages, hf]
      · rcases hd : decode f with e2 | img <;>
          simp [Generator.requestOf, Generator.build_api_messages, hf, hd]

/-- C4: in every handler called with an uploaded image, the outgoing user
message content is a two-element list — a text part holding the (possibly
defaulted) prompt followed by an image_url part whose URL is exactly
`"data:image/jpeg;base64,"` concatenated with the base64 encoding of the
image bytes (the JPEG serialization produced by `source_image.save`). -/
theorem c4_image_message_structure (api_key : Option String)
    (prompt model_choice instructions : String) (img : List Nat) (max_tokens : Nat)
    (decode : String → Except String (List Nat)) (r1 r2 : Except String (Option String))
    (r3 : Except String Part000.Message) (r4 : Except String Generator.Message)
    (newPath : String) (st : FsState) (hk : pyTruthyOptStr api_key = true) :
    ImageAnalysis.requestOf (ImageAnalysis.get_vision_response api_key prompt (some img)
        model_choice r1 newPath st)
      = some ⟨model_choice,
          [⟨"user", MsgContent.parts
            [ContentPart.text (if pyStrip prompt = "" then "Describe this image in detail."
                else prompt),
             ContentPart.image_url ("data:image/jpeg;base64," ++ b64encode img)]⟩],
          32768⟩ ∧
    ImageAnalyzis.requestOf (ImageAnalyzis.get_grok_response api_key prompt (some img) r2)
      = some ⟨"x-ai/grok-4-fast:free",
          [⟨"user", MsgContent.parts
            [ContentPart.text (if pyStrip prompt = "" then "Describe this image in detail."
                else prompt),
             ContentPart.image_url ("data:image/jpeg;base64," ++ b64encode img)]⟩],
          4096⟩ ∧
    Part000.requestOf (Part000.get_multimodal_response api_key prompt (some img)
        model_choice decode r3)
      = some ⟨model_choice,
          [⟨"user", MsgContent.parts
            [ContentPart.text (if prompt = "" then "Describe this image in detail."
                else prompt),
             ContentPart.image_url ("data:image/jpeg;base64," ++ b64encode img)]⟩],
          8192, false⟩ ∧
    Generator.requestOf (Generator.get_multimodal_response api_key prompt (some img)
        model_choice instructions max_tokens decode r4 newPath st)
      = some ⟨model_choice,
          (if instructions ≠ "" ∧ pyStrip instructions ≠ "" then
            [⟨"system", MsgContent.str instructions⟩] else [])
          ++ [⟨"user", MsgContent.parts
            [ContentPart.text (if prompt = "" then "Describe this image in detail."
                else prompt),
             ContentPart.image_url ("data:image/jpeg;base64," ++ b64encode img)]⟩],
          max_tokens, false⟩ :=
  ⟨vision_requestOf_image_eq api_key prompt img model_choice r1 newPath st hk,
   grok_requestOf_image_eq api_key prompt img r2 hk,
   part000_requestOf_image_eq api_key prompt img model_choice decode r3 hk,
   generator_requestOf_image_eq api_key prompt img model_choice instructions max_tokens
     decode r4 newPath st hk⟩

/-- Witness for C4 at a concrete input. -/
theorem c4_image_message_structure_witness :
    pyTruthyOptStr (some "k") = true ∧
    (ImageAnalysis.requestOf (ImageAnalysis.get_vision_response (some "k") "what?"
        (some [0, 1, 2]) "m" (Except.ok (some "t")) "/tmp/d.md" ⟨[], []⟩)
      = some ⟨"m",
          [⟨"user", MsgContent.parts
            [ContentPart.text (if pyStrip "what?" = "" then "Describe this image in detail."
                else "what?"),
             ContentPart.image_url ("data:image/jpeg;base64," ++ b64encode [0, 1, 2])]⟩],
          32768⟩ ∧
    ImageAnalyzis.requestOf (ImageAnalyzis.get_grok_response (some "k") "what?"
        (some [0, 1, 2]) (Except.ok (some "t")))
      = some ⟨"x-ai/grok-4-fast:free",
          [⟨"user", MsgContent.parts
            [ContentPart.text (if pyStrip "what?" = "" then "Describe this image in detail."
                else "what?"),
             ContentPart.image_url ("data:image/jpeg;base64," ++ b64encode [0, 1, 2])]⟩],
          4096⟩ ∧
    Part000.requestOf (Part000.get_multimodal_response (some "k") "what?"
        (some [0, 1, 2]) "m" pyB64decode (Except.ok ⟨some "t", []⟩))
      = some ⟨"m",
          [⟨"user", MsgContent.parts
            [ContentPart.text (if ("what?" : String) = "" then "Describe this image in detail."
                else "what?"),
             ContentPart.image_url ("data:image/jpeg;base64," ++ b64encode [0, 1, 2])]⟩],
          8192, false⟩ ∧
    Generator.requestOf (Generator.get_multimodal_response (some "k") "what?"
        (some [0, 1, 2]) "m" "sys" 100 pyB64decode (Except.ok ⟨some "t", []⟩)
        "/tmp/d.md" ⟨[], []⟩)
      = some ⟨"m",
          (if ("sys" : String) ≠ "" ∧ pyStrip "sys" ≠ "" then
            [⟨"system", MsgContent.str "sys"⟩] else [])
          ++ [⟨"user", MsgContent.parts
            [ContentPart.text (if ("what?" : String) = "" then "Describe this image in detail."
                else "what?"),
             ContentPart.image_url ("data:image/jpeg;base64," ++ b64encode [0, 1, 2])]⟩],
          100, false⟩) :=
  ⟨by decide, c4_image_message_structure (some "k") "what?" "m" "sys" [0, 1, 2] 100
    pyB64decode (Except.ok (some "t")) (Except.ok (some "t")) (Except.ok ⟨some "t", []⟩)
    (Except.ok ⟨some "t", []⟩) "/tmp/d.md" ⟨[], []⟩ (by decide)⟩

/-- C9: with an uploaded image, every handler sends the fixed default prompt
"Describe this image in detail." exactly when the user prompt counts as
missing (empty or whitespace-only in the analysis handlers, empty in the
multimodal handlers) and sends the user prompt unchanged otherwise. -/
theorem c9_default_prompt_with_image (api_key : Option String)
    (prompt model_choice instructions : String) (img : List Nat) (max_tokens : Nat)
    (decode : String → Except String (List Nat)) (r1 r2 : Except String (Option String))
    (r3 : Except String Part000.Message) (r4 : Except String Generator.Message)
    (newPath : String) (st : FsState) (hk : pyTruthyOptStr api_key = true) :
    (ImageAnalysis.requestOf (ImageAnalysis.get_vision_response api_key prompt (some img)
        model_choice r1 newPath st)).map (fun req => sentUserTextPart req.messages)
      = some (some (if pyStrip prompt = "" then "Describe this image in detail."
          else prompt)) ∧
    (ImageAnalyzis.requestOf (ImageAnalyzis.get_grok_response api_key prompt
        (some img) r2)).map (fun req => sentUserTextPart req.messages)
      = some (some (if pyStrip prompt = "" then "Describe this image in detail."
          else prompt)) ∧
    (Part000.requestOf (Part000.get_multimodal_response api_key prompt (some img)
        model_choice decode r3)).map (fun req => sentUserTextPart req.messages)
      = some (some (if prompt = "" then "Describe this image in detail." else prompt)) ∧
    (Generator.requestOf (Generator.get_multimodal_response api_key prompt (some img)
        model_choice instructions max_tokens decode r4 newPath st)).map
          (fun req => sentUserTextPart req.messages)
      = some (some (if prompt = "" then "Describe this image in detail." else prompt)) := by
  refine ⟨?_, ?_, ?_, ?_⟩
  · rw [vision_requestOf_image_eq api_key prompt img model_choice r1 newPath st hk]
    rfl
  · rw [grok_requestOf_image_eq api_key prompt img r2 hk]
    rfl
  · rw [part000_requestOf_image_eq api_key prompt img model_choice decode r3 hk]
    rfl
  · rw [generator_requestOf_image_eq api_key prompt img model_choice instructions
      max_tokens decode r4 newPath st hk]
    simp [sentUserTextPart, List.getLast?_concat]

/-- Witness for C9 at a concrete input. -/
theorem c9_default_prompt_with_image_witness :
    pyTruthyOptStr (some "k") = true ∧
    ((ImageAnalysis.requestOf (ImageAnalysis.get_vision_response (some "k") "  "
        (some [7]) "m" (Except.ok (some "t")) "/tmp/f.md" ⟨[], []⟩)).map
          (fun req => sentUserTextPart req.messages)
      = some (some (if pyStrip "  " = "" then "Describe this image in detail."
          else "  ")) ∧
    (ImageAnalyzis.requestOf (ImageAnalyzis.get_grok_response (some "k") "  "
        (some [7]) (Except.ok (some "t")))).map (fun req => sentUserTextPart req.messages)
      = some (some (if pyStrip "  " = "" then "Describe this image in detail."
          else "  ")) ∧
    (Part000.requestOf (Part000.get_multimodal_response (some "k") "  "
        (some [7]) "m" pyB64decode (Except.ok ⟨some "t", []⟩))).map
          (fun req => sentUserTextPart req.messages)
      = some (some (if ("  " : String) = "" then "Describe this image in detail."
          else "  ")) ∧
    (Generator.requestOf (Generator.get_multimodal_response (some "k") "  "
        (some [7]) "m" "" 100 pyB64decode (Except.ok ⟨some "t", []⟩)
        "/tmp/f.md" ⟨[], []⟩)).map (fun req => sentUserTextPart req.messages)
      = some (some (if ("  " : String) = "" then "Describe this image in detail."
          else "  "))) :=
  ⟨by decide, c9_default_prompt_with_image (some "k") "  " "m" "" [7] 100 pyB64decode
    (Except.ok (some "t")) (Except.ok (some "t")) (Except.ok ⟨some "t", []⟩)
    (Except.ok ⟨some "t", []⟩) "/tmp/f.md" ⟨[], []⟩ (by decide)⟩

/-- C7 is refuted as stated: an exception during image unpacking (here the
`IndexError` of `url.split(",")[1]` on a comma-free url) is raised after the
temporary file for the non-empty text response was already written and
tracked, so the error path returns with the cleanup list grown, not
unchanged. -/
theorem c7_counterexample :
    Generator.get_multimodal_response (some "k") "p" none "m" "" 100 pyB64decode
        (Except.ok ⟨some "hello", ["nocomma"]⟩) "/tmp/x.md" ⟨[], []⟩
      = Except.ok (⟨"m", [⟨"user", MsgContent.str "p"⟩], 100, true⟩,
          ⟨"", none, "‚ùå An API error occurred: list index out of range", hiddenDl⟩,
          ⟨[("/tmp/x.md", "hello")], ["/tmp/x.md"]⟩) ∧
    (⟨[("/tmp/x.md", "hello")], ["/tmp/x.md"]⟩ : FsState).cleanup
      ≠ (⟨[], []⟩ : FsState).cleanup :=
  ⟨rfl, by decide⟩

/-- C7 amended: an exception raised during the API call makes the generator
handler return with empty text, no image, an error status, the download
button hidden, and the filesystem/cleanup state unchanged; an exception
raised during image unpacking returns the same error-shaped outputs, but the
temporary file written for a non-empty text response beforehand stays in the
filesystem and on the session-wide cleanup list. -/
theorem c7_amended_error_path (api_key : Option String) (prompt : String)
    (source_image : Option (List Nat)) (model_choice instructions : String)
    (max_tokens : Nat) (decode : String → Except String (List Nat)) (e : String)
    (content : Option String) (url : String) (rest : List String)
    (newPath : String) (st : FsState)
    (hk : pyTruthyOptStr api_key = true)
    (hv : ¬ (prompt = "" ∧ source_image = none))
    (hurl : (pySplitComma url)[1]? = none) :
    Generator.get_multimodal_response api_key prompt source_image model_choice
        instructions max_tokens decode (Except.error e) newPath st
      = Except.ok (⟨model_choice, Generator.build_api_messages instructions
            (if source_image.isSome ∧ prompt = "" then "Describe this image in detail."
              else prompt) source_image, max_tokens, source_image.isNone⟩,
          ⟨"", none, "‚ùå An API error occurred: " ++ e, hiddenDl⟩, st) ∧
    Generator.get_multimodal_response api_key prompt source_image model_choice
        instructions max_tokens decode (Except.ok ⟨content, url :: rest⟩) newPath st
      = Except.ok (⟨model_choice, Generator.build_api_messages instructions
            (if source_image.isSome ∧ prompt = "" then "Describe this image in detail."
              else prompt) source_image, max_tokens, source_image.isNone⟩,
          ⟨"", none, "‚ùå An API error occurred: list index out of range", hiddenDl⟩,
          if content.getD "" ≠ "" then
            ⟨writeNewFile newPath (content.getD "") st.files, st.cleanup ++ [newPath]⟩
          else st) := by
  constructor
  · simp only [Generator.get_multimodal_response]
    rw [if_neg (by simp [hk]), if_neg hv]
  · simp only [Generator.get_multimodal_response]
    rw [if_neg (by simp [hk]), if_neg hv]
    simp only [hurl]

/-- Witness for C7's amended theorem at a concrete input. -/
theorem c7_amended_error_path_witness :
    pyTruthyOptStr (some "k") = true ∧
    ¬ (("p" : String) = "" ∧ (none : Option (List Nat)) = none) ∧
    (pySplitComma "nocomma")[1]? = none ∧
    (Generator.get_multimodal_response (some "k") "p" none "m" "" 100 pyB64decode
        (Except.error "boom") "/tmp/x.md" ⟨[], []⟩
      = Except.ok (⟨"m", Generator.build_api_messages ""
            (if (none : Option (List Nat)).isSome ∧ ("p" : String) = ""
              then "Describe this image in detail." else "p") none, 100,
            (none : Option (List Nat)).isNone⟩,
          ⟨"", none, "‚ùå An API error occurred: " ++ "boom", hiddenDl⟩, ⟨[], []⟩) ∧
    Generator.get_multimodal_response (some "k") "p" none "m" "" 100 pyB64decode
        (Except.ok ⟨some "hello", ["nocomma"]⟩) "/tmp/x.md" ⟨[], []⟩
      = Except.ok (⟨"m", Generator.build_api_messages ""
            (if (none : Option (List Nat)).isSome ∧ ("p" : String) = ""
              then "Describe this image in detail." else "p") none, 100,
            (none : Option (List Nat)).isNone⟩,
          ⟨"", none, "‚ùå An API error occurred: list index out of range", hiddenDl⟩,
          if (some "hello" : Option String).getD "" ≠ "" then
            ⟨writeNewFile "/tmp/x.md" ((some "hello" : Option String).getD "")
              (⟨[], []⟩ : FsState).files, (⟨[], []⟩ : FsState).cleanup ++ ["/tmp/x.md"]⟩
          else ⟨[], []⟩)) :=
  ⟨by decide, by decide, by decide,
    c7_amended_error_path (some "k") "p" none "m" "" 100 pyB64decode "boom"
      (some "hello") "nocomma" [] "/tmp/x.md" ⟨[], []⟩
      (by decide) (by decide) (by decide)⟩

/-- Sanity: `gifPayload` is the base64 encoding of `gifBytes`, and decoding
it gives the image bytes back. -/
theorem gifPayload_roundtrip :
    b64encode gifBytes = gifPayload ∧ pyB64decode gifPayload = Except.ok gifBytes :=
  ⟨rfl, rfl⟩

/-- C8 is refuted as stated: the code decodes `url.split(",")[1]`, the field
between the first and the second comma, not the substring after the first
comma. At a data URL whose second field is the base64 of a 1×1 GIF and whose
third field is "junk", the program renders the 36 GIF bytes, while the
substring after the first comma decodes (the comma is skipped, the junk
digits are kept, as `base64.b64decode` does) to 39 different bytes. `decode`
is instantiated with `pyB64decode`, the image parse leaving the bytes
unchanged — faithful here because the payload is a valid GIF whose header
`Image.open` accepts. -/
theorem c8_counterexample :
    Part000.get_multimodal_response (some "k") "p" none "m" pyB64decode
        (Except.ok ⟨some "t", [gifDataUrl]⟩)
      = Except.ok (⟨"m", [⟨"user", MsgContent.str "p"⟩], 8192, true⟩,
          ⟨"t", some gifBytes, "✅ Success with " ++ "m" ++ "."⟩) ∧
    afterFirstComma gifDataUrl = gifPayload ++ ",junk" ∧
    pyB64decode (gifPayload ++ ",junk") = Except.ok (gifBytes ++ [142, 233, 228]) ∧
    gifBytes ≠ gifBytes ++ [142, 233, 228] :=
  ⟨rfl, rfl, rfl, by decide⟩

/-- C8 amended: when the response message carries a non-empty images list
and the second comma-separated field of the first image's data URL decodes
successfully, the rendered image is the decoding of that field
(`url.split(",")[1]`, which equals the substring after the first comma
whenever the payload holds no further comma), and blank accompanying text is
replaced by "Image generated successfully."; with no images only text is
rendered and the image output stays absent — in the unnamed script and in
the generator script alike. -/
theorem c8_amended_image_rendering (api_key : Option String) (prompt : String)
    (source_image : Option (List Nat)) (model_choice instructions : String)
    (max_tokens : Nat) (decode : String → Except String (List Nat))
    (content : Option String) (url f : String) (img_bytes : List Nat)
    (rest : List String) (newPath : String) (st : FsState)
    (hk : pyTruthyOptStr api_key = true)
    (hv : ¬ (prompt = "" ∧ source_image = none))
    (hf : (pySplitComma url)[1]? = some f)
    (hd : decode f = Except.ok img_bytes) :
    Part000.get_multimodal_response api_key prompt source_image model_choice decode
        (Except.ok ⟨content, []⟩)
      = Except.ok (⟨model_choice, Part000.build_api_messages
            (if source_image.isSome ∧ prompt = "" then "Describe this image in detail."
              else prompt) source_image, 8192, source_image.isNone⟩,
          ⟨content.getD "", none,
            "✅ Text response received from " ++ model_choice ++ "."⟩) ∧
    Part000.get_multimodal_response api_key prompt source_image model_choice decode
        (Except.ok ⟨content, url :: rest⟩)
      = Except.ok (⟨model_choice, Part000.build_api_messages
            (if source_image.isSome ∧ prompt = "" then "Describe this image in detail."
              else prompt) source_image, 8192, source_image.isNone⟩,
          ⟨if pyStrip (content.getD "") = "" then "Image generated successfully."
              else content.getD "",
            some img_bytes, "✅ Success with " ++ model_choice ++ "."⟩) ∧
    Generator.get_multimodal_response api_key prompt source_image model_choice
        instructions max_tokens decode (Except.ok ⟨content, []⟩) newPath st
      = Except.ok (⟨model_choice, Generator.build_api_messages instructions
            (if source_image.isSome ∧ prompt = "" then "Describe this image in detail."
              else prompt) source_image, max_tokens, source_image.isNone⟩,
          ⟨content.getD "", none,
            "‚úÖ Text response received from " ++ model_choice ++ ".",
            if content.getD "" ≠ "" then ⟨true, some newPath⟩ else hiddenDl⟩,
          if content.getD "" ≠ "" then
            ⟨writeNewFile newPath (content.getD "") st.files, st.cleanup ++ [newPath]⟩
          else st) ∧
    Generator.get_multimodal_response api_key prompt source_image model_choice
        instructions max_tokens decode (Except.ok ⟨content, url :: rest⟩) newPath st
      = Except.ok (⟨model_choice, Generator.build_api_messages instructions
            (if source_image.isSome ∧ prompt = "" then "Describe this image in detail."
              else prompt) source_image, max_tokens, source_image.isNone⟩,
          ⟨if pyStrip (content.getD "") = "" then "Image generated successfully."
              else content.getD "",
            some img_bytes, "‚úÖ Success with " ++ model_choice ++ ".",
            if content.getD "" ≠ "" then ⟨true, some newPath⟩ else hiddenDl⟩,
          if content.getD "" ≠ "" then
            ⟨writeNewFile newPath (content.getD "") st.files, st.cleanup ++ [newPath]⟩
          else st) := by
  refine ⟨?_, ?_, ?_, ?_⟩
  · simp only [Part000.get_multimodal_response]
    rw [if_neg (by simp [hk]), if_neg hv]
  · simp only [Part000.get_multimodal_response]
    rw [if_neg (by simp [hk]), if_neg hv]
    simp only [hf, hd]
  · simp only [Generator.get_multimodal_response]
    rw [if_neg (by simp [hk]), if_neg hv]
  · simp only [Generator.get_multimodal_response]
    rw [if_neg (by simp [hk]), if_neg hv]
    simp only [hf, hd]

/-- Witness for C8's amended theorem at a concrete input. -/
theorem c8_amended_image_rendering_witness :
    pyTruthyOptStr (some "k") = true ∧
    ¬ (("p" : String) = "" ∧ (none : Option (List Nat)) = none) ∧
    (pySplitComma gifDataUrl)[1]? = some gifPayload ∧
    pyB64decode gifPayload = Except.ok gifBytes ∧
    Part000.get_multimodal_response (some "k") "p" none "m" pyB64decode
        (Except.ok ⟨some " ", [gifDataUrl]⟩)
      = Except.ok (⟨"m", Part000.build_api_messages
            (if (none : Option (List Nat)).isSome ∧ ("p" : String) = ""
              then "Describe this image in detail." else "p") none, 8192,
            (none : Option (List Nat)).isNone⟩,
          ⟨if pyStrip ((some " " : Option String).getD "") = ""
              then "Image generated successfully."
              else (some " " : Option String).getD "",
            some gifBytes, "✅ Success with " ++ "m" ++ "."⟩) :=
  ⟨by decide, by decide, by decide, rfl,
    (c8_amended_image_rendering (some "k") "p" none "m" "" 100 pyB64decode (some " ")
      gifDataUrl gifPayload gifBytes [] "/tmp/g.md" ⟨[], []⟩
      (by decide) (by decide) (by decide) rfl).2.1⟩

end OpenRouter
